import Mathlib

/-!
Verification development for the storybound-proxy repository.

The repository is a set of Next.js/Vercel API route handlers that proxy
AI chat-completion and image-generation requests to a prioritized chain of
upstream providers (xAI/Grok first, then Gemini and/or OpenAI), with a cost
guard that clamps the inbound request, a small linear-backoff retry wrapper
on the image route, and a final aggregated-failure response when every
provider fails.

This file shallowly embeds the relevant JavaScript from:
  - src/api/proxy/index.js   (chat handler: sanitizeChatBody, toGeminiRequest,
    fromGeminiToChatCompletions, fromOpenAIToChatCompletions, errMsg,
    and the xAI -> Gemini -> OpenAI fallback chain)
  - src/unnamed/part_000     (image handler: withRetry, tryGrok payload
    construction, credential checks, errMsg, and the
    Grok -> OpenAI -> Gemini fallback chain)
  - src/unnamed/part_002     (an older drifted duplicate of the image route
    whose tryGrok still forwards the `size` field)

JavaScript dynamic values are modelled by the inductive `JVal`; JS numbers
are restricted to integers (no float arithmetic is exercised by the
embedded code paths). Network calls are modelled as explicit parameters
producing an outcome together with a trace of `REvent` events, so that
temporal claims ("no network call is made", "no delay is incurred",
"provider 3 is never invoked") become statements about traces.
-/

namespace Storybound

/-- A JavaScript runtime value, restricted to what the embedded handlers
manipulate. JS numbers are modelled as integers. -/
inductive JVal : Type
  | jUndef : JVal
  | jNull : JVal
  | jBool (b : Bool) : JVal
  | jNum (n : Int) : JVal
  | jStr (s : String) : JVal
  | jArr (elems : List JVal) : JVal
  | jObj (fields : List (String × JVal)) : JVal
deriving Repr

open JVal

/-- JS truthiness: `undefined`, `null`, `false`, `0` and `""` are falsy,
everything else is truthy (NaN is not modelled). -/
def truthy : JVal → Bool
  | jUndef => false
  | jNull => false
  | jBool b => b
  | jNum n => n != 0
  | jStr s => s != ""
  | jArr _ => true
  | jObj _ => true

/-- Property access `v?.k` (and plain `.k` on a known object): returns the
field's value on an object, `undefined` otherwise (optional chaining on a
nullish value, or property access on a primitive, yields `undefined`). -/
def jget : JVal → String → JVal
  | jObj fields, k => (fields.lookup k).getD jUndef
  | _, _ => jUndef

/-- Index access `v?.[i]`: returns the element of an array, `undefined`
otherwise. -/
def jidx : JVal → Nat → JVal
  | jArr elems, i => elems.getD i jUndef
  | _, _ => jUndef

/-- The coercion used by `clampText` and `toGeminiRequest`:
`typeof v === "string" ? v : ""`. -/
def jsToStr : JVal → String
  | jStr s => s
  | _ => ""

/-- Returns `true` exactly on string values (`typeof v === "string"`). -/
def isStr : JVal → Bool
  | jStr _ => true
  | _ => false

/-- Minimal model of JSON string escaping (quote, backslash, newline;
other control characters are left as-is — the embedded claims never
exercise them). -/
def jescapeChar (c : Char) : String :=
  if c = '"' then "\\\"" else if c = '\\' then "\\\\" else if c = '\n' then "\\n" else String.mk [c]

/-- Escape the characters of a string for JSON output. -/
def jescape (s : String) : String :=
  String.join (s.toList.map jescapeChar)

mutual

/-- Model of `JSON.stringify` on a `JVal`. `JSON.stringify(undefined)` is
`undefined` in JS (not a string); it is unreachable in the embedded code
(only called on truthy values) and modelled as `""`. -/
def jstringify : JVal → String
  | jUndef => ""
  | jNull => "null"
  | jBool b => if b then "true" else "false"
  | jNum n => toString n
  | jStr s => "\"" ++ jescape s ++ "\""
  | jArr elems => "[" ++ jstringifyElems elems ++ "]"
  | jObj fields => "\x7b" ++ jstringifyFields fields ++ "\x7d"

/-- Comma-separated stringification of array elements. -/
def jstringifyElems : List JVal → String
  | [] => ""
  | [v] => jstringify v
  | v :: rest => jstringify v ++ "," ++ jstringifyElems rest

/-- Comma-separated stringification of object fields; `undefined`-valued
fields are omitted, as `JSON.stringify` does. -/
def jstringifyFields : List (String × JVal) → String
  | [] => ""
  | (_, jUndef) :: rest => jstringifyFields rest
  | (k, v) :: rest =>
      let here := "\"" ++ jescape k ++ "\":" ++ jstringify v
      let tail := jstringifyFields rest
      if tail = "" then here else here ++ "," ++ tail

end

mutual

/-- Model of JS `String(v)` coercion, used by `Array.prototype.join`. -/
def jsStringOf : JVal → String
  | jUndef => "undefined"
  | jNull => "null"
  | jBool b => if b then "true" else "false"
  | jNum n => toString n
  | jStr s => s
  | jArr elems => jsStringOfElems elems
  | jObj _ => "[object Object]"

/-- Model of `Array.prototype.toString` = `join(",")`; nullish elements render as
the empty string. -/
def jsStringOfElems : List JVal → String
  | [] => ""
  | [v] => jsStringOfElem v
  | v :: rest => jsStringOfElem v ++ "," ++ jsStringOfElems rest

/-- One element of an array being joined: nullish values become `""`. -/
def jsStringOfElem : JVal → String
  | jUndef => ""
  | jNull => ""
  | v => jsStringOf v

end

/-- Model of `arr.join("")`: concatenation of `String(v)` over the elements. -/
def jsJoinEmpty (vs : List JVal) : String :=
  String.join (vs.map jsStringOf)

/-- A thrown JS error as observed by the handlers' `errMsg` helpers:
its `.message` and its `.response?.data` (axios attaches the HTTP
response body there; plain `Error` objects have `responseData = jUndef`). -/
structure JsError where
  message : JVal
  responseData : JVal
deriving Repr

/-- Model of `errMsg` from src/api/proxy/index.js (chat route):
```
const data = e?.response?.data;
if (!data) return e?.message || "Unknown error";
if (typeof data === "string") return data;
if (data?.error) return typeof data.error === "string" ? data.error : JSON.stringify(data.error);
if (data?.message) return data.message;
return JSON.stringify(data);
```
-/
def errMsgChat (e : JsError) : JVal :=
  let data := e.responseData
  if truthy data = false then
    if truthy e.message then e.message else jStr "Unknown error"
  else
    match data with
    | jStr s => jStr s
    | _ =>
        if truthy (jget data "error") then
          match jget data "error" with
          | jStr s => jStr s
          | v => jStr (jstringify v)
        else if truthy (jget data "message") then jget data "message"
        else jStr (jstringify data)

/-- Model of `errMsg` from src/unnamed/part_000 (image route) — note the different
order: the `e?.message || "Unknown error"` fallback comes last:
```
const data = e?.response?.data;
if (typeof data === "string") return data;
if (data?.error) return typeof data.error === "string" ? data.error : JSON.stringify(data.error);
if (data?.message) return data.message;
return e?.message || "Unknown error";
```
-/
def errMsgImg (e : JsError) : JVal :=
  match e.responseData with
  | jStr s => jStr s
  | data =>
      if truthy (jget data "error") then
        match jget data "error" with
        | jStr s => jStr s
        | v => jStr (jstringify v)
      else if truthy (jget data "message") then jget data "message"
      else if truthy e.message then e.message else jStr "Unknown error"

/-- The image route's `errMsg` applied to the error propagated out of `withRetry`, whose
`lastErr` starts out `undefined` (`none`); `errMsg(undefined)` evaluates
to `"Unknown error"`, which coincides with `errMsgImg ⟨jUndef, jUndef⟩`. -/
def errMsgImgOpt (e : Option JsError) : JVal :=
  errMsgImg (e.getD ⟨jUndef, jUndef⟩)

/-! ## Retry executor (src/unnamed/part_000 lines 42–55)

`withRetry` is modelled with an explicit event trace so that temporal
properties (how often the attempt function ran, which delays were slept,
whether a network request was issued) are stated as facts about the
returned event list. -/

/-- An observable event during one orchestrated provider stage:
`attempt i` marks the retry loop invoking its attempt function for the
`i`-th time (0-based, the loop variable `i`), `delay ms` marks
`await sleep(ms)`, and `netCall url` marks an outgoing `axios.post`. -/
inductive REvent : Type
  | attempt (i : Nat) : REvent
  | delay (ms : Nat) : REvent
  | netCall (url : String) : REvent
deriving DecidableEq, Repr

/-- The loop body of `withRetry`:
```
for (let i = 0; i < tries; i++) {
  try { return await fn(i); }
  catch (e) { lastErr = e; if (i < tries - 1) await sleep(delayMs * (i + 1)); }
}
throw lastErr;
```
`remaining` counts the iterations the `i < tries` guard still allows
(`remaining = tries - i`), making the recursion structural; `lastErr`
starts out `undefined`, modelled as `none`. The attempt function is
passed the loop index and returns its own event trace together with its
outcome; a thrown error is `Except.error`. JS `i < tries - 1` agrees with
`i + 1 < tries` over the naturals on every reachable iteration. -/
def withRetryLoop {E A : Type} (fn : Nat → List REvent × Except E A) (tries delayMs : Nat) :
    Nat → Nat → Option E → List REvent × Except (Option E) A
  | 0, _, lastErr => ([], Except.error lastErr)
  | remaining + 1, i, _ =>
      match fn i with
      | (t, Except.ok v) => (REvent.attempt i :: t, Except.ok v)
      | (t, Except.error e) =>
          let rest := withRetryLoop fn tries delayMs remaining (i + 1) (some e)
          (REvent.attempt i ::
            (t ++ (if i + 1 < tries then [REvent.delay (delayMs * (i + 1))] else []) ++ rest.1),
           rest.2)

/-- Model of `withRetry(fn, { tries, delayMs })` from src/unnamed/part_000. -/
def withRetry {E A : Type} (fn : Nat → List REvent × Except E A) (tries delayMs : Nat) :
    List REvent × Except (Option E) A :=
  withRetryLoop fn tries delayMs tries 0 none

/-! ## Image route provider attempts (src/unnamed/part_000 lines 86–211)

Each `tryX` function first checks its credential and throws without any
network activity when it is absent; only then does it issue the upstream
call. The body of a configured attempt (the `axios.post`, the status
check with `validateStatus: () => true`, and the response-shape
extraction down to the normalized `ok({...})` object or a thrown error)
is abstracted as the parameter `net`, which yields the events it emitted
(its `netCall`) together with its outcome — the orchestration claims
below never depend on its internals. -/

/-- Model of `tryGrok` (part_000 lines 87–141) at the orchestration level: throws
`"GROK_API_KEY (or XAI_API_KEY) not set"` before any network call when
the key is falsy, otherwise runs the configured attempt. -/
def tryGrokAttempt (grokKey : JVal) (net : Nat → List REvent × Except JsError JVal)
    (i : Nat) : List REvent × Except JsError JVal :=
  if truthy grokKey then net i
  else ([], Except.error ⟨jStr "GROK_API_KEY (or XAI_API_KEY) not set", jUndef⟩)

/-- Model of `tryOpenAI` (part_000 lines 144–175) at the orchestration level. -/
def tryOpenAIAttempt (openaiKey : JVal) (net : Nat → List REvent × Except JsError JVal)
    (i : Nat) : List REvent × Except JsError JVal :=
  if truthy openaiKey then net i
  else ([], Except.error ⟨jStr "OPENAI_API_KEY not set", jUndef⟩)

/-- Model of `tryGemini` (part_000 lines 178–182): after the credential check it
unconditionally throws — the Gemini image fallback is not implemented. -/
def tryGeminiAttempt (geminiKey : JVal) (_i : Nat) : List REvent × Except JsError JVal :=
  if truthy geminiKey then
    ([], Except.error ⟨jStr "Gemini image fallback not implemented yet", jUndef⟩)
  else ([], Except.error ⟨jStr "GEMINI_API_KEY not set", jUndef⟩)

/-- The image route's execution chain (part_000 lines 184–211): Grok with
2 tries, then OpenAI with 2 tries, then Gemini with 1 try, each stage
entered only when the previous one failed; total exhaustion answers 502
with the per-provider `errMsg` details. The result is the combined event
trace together with the HTTP status and JSON body sent to the caller. -/
def imageHandler (grokKey openaiKey geminiKey : JVal)
    (grokNet openaiNet : Nat → List REvent × Except JsError JVal) :
    List REvent × Nat × JVal :=
  match withRetry (tryGrokAttempt grokKey grokNet) 2 700 with
  | (t1, Except.ok v) => (t1, 200, v)
  | (t1, Except.error grokErr) =>
      match withRetry (tryOpenAIAttempt openaiKey openaiNet) 2 700 with
      | (t2, Except.ok v) => (t1 ++ t2, 200, v)
      | (t2, Except.error openaiErr) =>
          match withRetry (tryGeminiAttempt geminiKey) 1 700 with
          | (t3, Except.ok v) => (t1 ++ t2 ++ t3, 200, v)
          | (t3, Except.error geminiErr) =>
              (t1 ++ t2 ++ t3, 502,
               jObj [("error", jStr "All image providers failed"),
                     ("details",
                      jObj [("grok", errMsgImgOpt grokErr),
                            ("openai", errMsgImgOpt openaiErr),
                            ("gemini", errMsgImgOpt geminiErr)])])

/-! ## The fallback-chain pattern

Both handlers drive their providers through the same nested try/catch
pattern (src/api/proxy/index.js lines 196–316 and src/unnamed/part_000
lines 184–211): run the current provider; a success returns immediately;
a failure records the provider's error and falls into the next provider's
try block. `fallbackChain` is that pattern as a recursion over an ordered
list of provider stages, each given by its name and its (already
retry-wrapped) outcome with its event trace. -/

/-- One nested try/catch level per list element: success short-circuits,
failure prepends `(name, error)` to the accumulated failure details. -/
def fallbackChain {E A : Type} :
    List (String × (List REvent × Except E A)) → List REvent × Except (List (String × E)) A
  | [] => ([], Except.error [])
  | (_, (t, Except.ok v)) :: _ => (t, Except.ok v)
  | (name, (t, Except.error e)) :: rest =>
      match fallbackChain rest with
      | (t', Except.ok v) => (t ++ t', Except.ok v)
      | (t', Except.error ds) => (t ++ t', Except.error ((name, e) :: ds))

/-- The handler `imageHandler` is an instance of the `fallbackChain` pattern applied
to its three retry-wrapped stages, rendered to an HTTP response. -/
theorem imageHandler_eq_fallbackChain (grokKey openaiKey geminiKey : JVal)
    (grokNet openaiNet : Nat → List REvent × Except JsError JVal) :
    imageHandler grokKey openaiKey geminiKey grokNet openaiNet =
      match fallbackChain
          [("grok", withRetry (tryGrokAttempt grokKey grokNet) 2 700),
           ("openai", withRetry (tryOpenAIAttempt openaiKey openaiNet) 2 700),
           ("gemini", withRetry (tryGeminiAttempt geminiKey) 1 700)] with
      | (t, Except.ok v) => (t, 200, v)
      | (t, Except.error ds) =>
          (t, 502,
           jObj [("error", jStr "All image providers failed"),
                 ("details", jObj (ds.map (fun p => (p.1, errMsgImgOpt p.2))))]) := by
  unfold imageHandler fallbackChain
  rcases h1 : withRetry (tryGrokAttempt grokKey grokNet) 2 700 with ⟨t1, r1⟩
  rcases r1 with v | e1 <;>
    rcases h2 : withRetry (tryOpenAIAttempt openaiKey openaiNet) 2 700 with ⟨t2, r2⟩ <;>
      try rcases r2 with v2 | e2 <;>
        rcases h3 : withRetry (tryGeminiAttempt geminiKey) 1 700 with ⟨t3, r3⟩ <;>
          try rcases r3 with v3 | e3
  all_goals simp [fallbackChain, List.append_assoc]

/-! ## Grok image payload construction (claim C1)

src/unnamed/part_000 lines 18–29 destructure the request body as
`const { prompt, model, size, ...restRaw } = body;` and then defensively
re-strip `size` from the rest: `const { size: _ignoredSize, ...rest } = restRaw;`.
The image request body is modelled with the destructured fields explicit
and `restRaw` as the remaining field list (which, in a real JS object,
cannot itself contain `prompt`/`model`/`size` again — keeping it general
lets the defensive strip be stated). -/

/-- The image request body after destructuring. -/
structure ImageBody where
  prompt : JVal
  model : JVal
  size : JVal
  restRaw : List (String × JVal)

/-- Model of `const grokModel = model || "grok-2-image-1212";` (part_000 line 38,
part_002 line 35). -/
def grokModelOf (b : ImageBody) : JVal :=
  if truthy b.model then b.model else jStr "grok-2-image-1212"

/-- Model of `const requestedSize = size || "1024x1024";` (part_000 line 31,
part_002 line 27). -/
def requestedSizeOf (b : ImageBody) : JVal :=
  if truthy b.size then b.size else jStr "1024x1024"

/-- The payload `tryGrok` posts to `https://api.x.ai/v1/images/generations`
in src/unnamed/part_000 lines 93–97 (identically part_001 lines 360–364):
`{ model: grokModel, prompt, ...rest }` where `rest` is `restRaw` with any
`size` key stripped. No `size` field is ever present. -/
def grokPayload (b : ImageBody) : JVal :=
  jObj (("model", grokModelOf b) :: ("prompt", b.prompt)
          :: b.restRaw.filter (fun kv => kv.1 ≠ "size"))

/-- The payload the older drifted duplicate src/unnamed/part_002 lines
69–76 posts to the same Grok endpoint:
`{ model: grokModel, prompt, size: requestedSize, ...rest }` — it
forwards `size` (defaulting it to `"1024x1024"` when absent). -/
def grokPayloadLegacy (b : ImageBody) : JVal :=
  jObj (("model", grokModelOf b) :: ("prompt", b.prompt)
          :: ("size", requestedSizeOf b) :: b.restRaw)

/-- Whether a JS object value has a field named `k`. -/
def hasField (v : JVal) (k : String) : Bool :=
  match v with
  | jObj fields => fields.any (fun kv => kv.1 = k)
  | _ => false

/-- The current image route's Grok payload never contains a `size` field,
for any request body — even one smuggling `size` among the rest fields. -/
theorem grokPayload_no_size (b : ImageBody) : hasField (grokPayload b) "size" = false := by
  simp only [grokPayload, hasField, List.any_cons, List.any_filter]
  simp [List.any_eq_true]

/-! ## The retry trace on an always-failing attempt function (claim C3) -/

/-- Unfolding of one failing loop iteration: record the `attempt`, the
attempt's own events, the conditional backoff delay, and continue with the
next index and the new `lastErr`. -/
theorem withRetryLoop_fail_step {E A : Type} (fn : Nat → List REvent × Except E A)
    (tries delayMs remaining i : Nat) (lastErr : Option E) (t : List REvent) (e : E)
    (hfn : fn i = (t, Except.error e)) :
    withRetryLoop fn tries delayMs (remaining + 1) i lastErr =
      (REvent.attempt i ::
        (t ++ (if i + 1 < tries then [REvent.delay (delayMs * (i + 1))] else []) ++
          (withRetryLoop fn tries delayMs remaining (i + 1) (some e)).1),
       (withRetryLoop fn tries delayMs remaining (i + 1) (some e)).2) := by
  simp [withRetryLoop, hfn]

/-- When every attempt fails, each loop iteration contributes its
`attempt` event, the attempt's own events, and — except after the final
attempt — a `delay delayMs * (i + 1)` event. -/
theorem withRetryLoop_allFail {E A : Type} (fn : Nat → List REvent × Except E A)
    (tries delayMs : Nat) (e : Nat → E) (tr : Nat → List REvent)
    (h : ∀ i, fn i = (tr i, Except.error (e i))) :
    ∀ (n i : Nat) (lastErr : Option E), i + (n + 1) = tries →
      withRetryLoop fn tries delayMs (n + 1) i lastErr =
        (((List.range' i (n + 1)).map
            (fun j => REvent.attempt j ::
              (tr j ++ (if j + 1 < tries then [REvent.delay (delayMs * (j + 1))] else [])))).flatten,
         Except.error (some (e (tries - 1)))) := by
  intro n
  induction n with
  | zero =>
      intro i lastErr hi
      rw [withRetryLoop_fail_step fn tries delayMs 0 i lastErr (tr i) (e i) (h i)]
      have hnlt : ¬ (i + 1 < tries) := by omega
      have hlast : tries - 1 = i := by omega
      simp [withRetryLoop, hnlt, hlast]
  | succ n ih =>
      intro i lastErr hi
      have hlt : i + 1 < tries := by omega
      rw [withRetryLoop_fail_step fn tries delayMs (n + 1) i lastErr (tr i) (e i) (h i),
          ih (i + 1) (some (e i)) (by omega)]
      simp [hlt, List.range'_succ, List.append_assoc]

/-- Claim C3: on an attempt function that always fails, `withRetry` with
`tries = n ≥ 1` invokes the attempt function exactly `n` times (`attempt
0 … attempt (n-1)` in order), sleeps `delayMs * j` immediately before
attempt `j` for every `j ≥ 1` (equivalently `delayMs * (i + 1)` right
after failed attempt `i < n - 1`), inserts no delay before the first
attempt, and finally re-throws the last attempt's error unchanged (the
`some` wrapper is this embedding's representation of the JS `lastErr`
variable that starts out `undefined`). -/
theorem withRetry_always_failing_trace {E A : Type} (fn : Nat → List REvent × Except E A)
    (tries delayMs : Nat) (e : Nat → E) (tr : Nat → List REvent)
    (htries : 1 ≤ tries) (h : ∀ i, fn i = (tr i, Except.error (e i))) :
    withRetry fn tries delayMs =
      (((List.range tries).map
          (fun j => REvent.attempt j ::
            (tr j ++ (if j + 1 < tries then [REvent.delay (delayMs * (j + 1))] else [])))).flatten,
       Except.error (some (e (tries - 1)))) := by
  obtain ⟨n, rfl⟩ : ∃ n, tries = n + 1 := ⟨tries - 1, by omega⟩
  rw [List.range_eq_range']
  exact withRetryLoop_allFail fn (n + 1) delayMs e tr h n 0 none (by omega)

/-- Witness for C3: a concrete always-failing attempt function run with
`tries = 2`, `delayMs = 700` (the image route's policy) produces exactly
two attempts separated by a single 700 ms delay and re-throws the error
of attempt 1. -/
theorem withRetry_always_failing_trace_witness :
    1 ≤ 2 ∧
      @withRetry Nat Nat (fun i => ([], Except.error i)) 2 700 =
        ([REvent.attempt 0, REvent.delay 700, REvent.attempt 1], Except.error (some 1)) := by
  refine ⟨by decide, ?_⟩
  rw [@withRetry_always_failing_trace Nat Nat (fun i => ([], Except.error i)) 2 700
        (fun i => i) (fun _ => []) (by decide) (fun _ => rfl)]
  rfl

/-! ## Success is terminal and short-circuiting (claim C2) -/

/-- Claim C2: in the nested try/catch fallback pattern, a success at
position `k` makes the whole computation equal to the chain truncated
right after `k`: the stages after `k` are never invoked — they contribute
no events (no attempt, no network call, no delay) and the result does not
depend on them in any way. -/
theorem fallbackChain_success_short_circuits {E A : Type}
    (ps : List (String × (List REvent × Except E A))) (k : Nat) (h : k < ps.length) (v : A)
    (hs : (ps.get ⟨k, h⟩).2.2 = Except.ok v) :
    fallbackChain ps = fallbackChain (ps.take (k + 1)) := by
  induction ps generalizing k with
  | nil => exact absurd h (by simp)
  | cons p rest ih =>
      obtain ⟨name, t, r⟩ := p
      match k with
      | 0 =>
          simp only [List.get] at hs
          subst hs
          simp [fallbackChain]
      | k + 1 =>
          cases r with
          | ok w => simp [fallbackChain]
          | error e =>
              have hk : k < rest.length := by
                simpa [Nat.succ_lt_succ_iff] using h
              have hs' : (rest.get ⟨k, hk⟩).2.2 = Except.ok v := hs
              rw [List.take_succ_cons]
              simp only [fallbackChain, ih k hk hs']

/-- Witness for C2: a two-stage chain whose first stage succeeds equals
its truncation to the first stage alone; the second stage's descriptor is
irrelevant. -/
theorem fallbackChain_success_short_circuits_witness :
    fallbackChain
        [("grok", ([REvent.attempt 0], Except.ok (0 : Nat))),
         ("openai", ([REvent.attempt 0, REvent.netCall "https://api.openai.com/v1/images/generations"],
                     Except.error "boom"))] =
      fallbackChain
        [("grok", ([REvent.attempt 0], Except.ok (0 : Nat)))] := by
  exact fallbackChain_success_short_circuits _ 0 (by decide) 0 rfl

/-! ## Total exhaustion aggregates all three providers (claim C5) -/

/-- Claim C5: when each provider of the image route's three-provider chain
fails on every attempt, the caller receives a 502 whose `details` object
has exactly three keys — `grok`, `openai`, `gemini` — each holding that
provider's *last* attempt's error message (`errMsg` of attempt 1 for the
two-try Grok and OpenAI stages, of attempt 0 for the one-try Gemini
stage). -/
theorem imageHandler_all_fail_aggregate (grokKey openaiKey geminiKey : JVal)
    (grokNet openaiNet : Nat → List REvent × Except JsError JVal)
    (eg eo em : Nat → JsError) (tg tp tm : Nat → List REvent)
    (hg : ∀ i, tryGrokAttempt grokKey grokNet i = (tg i, Except.error (eg i)))
    (ho : ∀ i, tryOpenAIAttempt openaiKey openaiNet i = (tp i, Except.error (eo i)))
    (hm : ∀ i, tryGeminiAttempt geminiKey i = (tm i, Except.error (em i))) :
    (imageHandler grokKey openaiKey geminiKey grokNet openaiNet).2 =
      (502, jObj [("error", jStr "All image providers failed"),
                  ("details", jObj [("grok", errMsgImg (eg 1)),
                                    ("openai", errMsgImg (eo 1)),
                                    ("gemini", errMsgImg (em 0))])]) := by
  have h1 := withRetry_always_failing_trace (tryGrokAttempt grokKey grokNet) 2 700 eg tg
    (by decide) hg
  have h2 := withRetry_always_failing_trace (tryOpenAIAttempt openaiKey openaiNet) 2 700 eo tp
    (by decide) ho
  have h3 := withRetry_always_failing_trace (tryGeminiAttempt geminiKey) 1 700 em tm
    (by decide) hm
  simp only [imageHandler, h1, h2, h3]
  simp [errMsgImgOpt]

/-- Witness for C5: with no credential configured, every attempt of every
stage fails with its "not set" error, and the 502 details carry exactly
the three providers' last errors. -/
theorem imageHandler_all_fail_aggregate_witness :
    (imageHandler jUndef jUndef jUndef
        (fun _ => ([], Except.error ⟨jStr "unreachable", jUndef⟩))
        (fun _ => ([], Except.error ⟨jStr "unreachable", jUndef⟩))).2 =
      (502, jObj [("error", jStr "All image providers failed"),
                  ("details",
                   jObj [("grok", jStr "GROK_API_KEY (or XAI_API_KEY) not set"),
                         ("openai", jStr "OPENAI_API_KEY not set"),
                         ("gemini", jStr "GEMINI_API_KEY not set")])]) := by
  rw [imageHandler_all_fail_aggregate jUndef jUndef jUndef _ _
        (fun _ => ⟨jStr "GROK_API_KEY (or XAI_API_KEY) not set", jUndef⟩)
        (fun _ => ⟨jStr "OPENAI_API_KEY not set", jUndef⟩)
        (fun _ => ⟨jStr "GEMINI_API_KEY not set", jUndef⟩)
        (fun _ => []) (fun _ => []) (fun _ => [])
        (fun _ => rfl) (fun _ => rfl) (fun _ => rfl)]
  rfl

/-! ## The drifted image route forwards `size` to Grok (claim C1) -/

/-- Claim C1 fails on src/unnamed/part_002: for the image request
`{prompt: "a cat", size: "1024x1024"}`, the payload its `tryGrok` builds
for the xAI image endpoint *does* contain `size: "1024x1024"`, while the
current route (src/unnamed/part_000, whose own comment says "do NOT send
`size` to xAI") builds a payload with no `size` field. -/
theorem grokPayloadLegacy_forwards_size :
    hasField (grokPayloadLegacy ⟨jStr "a cat", jUndef, jStr "1024x1024", []⟩) "size" = true ∧
    jget (grokPayloadLegacy ⟨jStr "a cat", jUndef, jStr "1024x1024", []⟩) "size" =
      jStr "1024x1024" ∧
    hasField (grokPayload ⟨jStr "a cat", jUndef, jStr "1024x1024", []⟩) "size" = false := by
  exact ⟨rfl, rfl, rfl⟩

/-! ## Chat route: cost guard / sanitizer (src/api/proxy/index.js lines 60–109)

The chat handler's environment-derived configuration. Defaults mirror
lines 29–38 of src/api/proxy/index.js. -/

/-- The env-tunable knobs of the chat route. -/
structure ProxyConfig where
  maxMessages : Nat
  maxCharsPerMessage : Nat
  maxTotalInputChars : Nat
  maxOutputTokens : Int
  geminiModel : String
  openaiModel : String

/-- The defaults: `MAX_MESSAGES = 24`, `MAX_CHARS_PER_MESSAGE = 3200`,
`MAX_TOTAL_INPUT_CHARS = 18000`, `MAX_OUTPUT_TOKENS = 900`,
`GEMINI_MODEL = "gemini-2.0-flash"`, `OPENAI_MODEL = "gpt-4o-mini"`. -/
def defaultConfig : ProxyConfig :=
  ⟨24, 3200, 18000, 900, "gemini-2.0-flash", "gpt-4o-mini"⟩

/-- One element of the inbound `messages` array, with its two accessed
properties (`m?.role`, `m?.content`) as raw JS values. A non-object array
element reads as `⟨jUndef, jUndef⟩`. -/
structure ChatMsg where
  role : JVal
  content : JVal
deriving Repr

/-- The inbound chat request body, destructured into the fields the
handler reads plus the untouched passthrough fields (spread back by
`{...body, messages, max_tokens}`). A non-object or missing body reads as
the all-`jUndef`, empty-lists record; a non-array `body.messages` reads
as `messages = []` (the `Array.isArray` check on line 70). -/
structure ChatBody where
  model : JVal
  messages : List ChatMsg
  temperature : JVal
  top_p : JVal
  prompt : JVal
  max_tokens : JVal
  extra : List (String × JVal)
deriving Repr

/-- Model of `clampText` (lines 61–66): coerce non-strings to `""`, then keep the
trailing `maxc` characters (`t.slice(t.length - max)`). -/
def clampText (v : JVal) (maxc : Nat) : String :=
  let t := jsToStr v
  if t.length ≤ maxc then t else String.mk (t.toList.drop (t.length - maxc))

/-- Model of `clamped.reduce((sum, m) => sum + (m.content?.length || 0), 0)`
(line 82), on messages whose content has already been clamped to a
string. -/
def sumLens (ms : List ChatMsg) : Nat :=
  ms.foldl (fun acc m => acc + (jsToStr m.content).length) 0

/-- The trimming loop of lines 85–89:
`while (out.length > 1 && total > MAX_TOTAL_INPUT_CHARS) { shift; total -= … }`. -/
def dropOldest (cap : Nat) : List ChatMsg → Nat → List ChatMsg
  | [], _ => []
  | [m], _ => [m]
  | m :: m2 :: ms, total =>
      if cap < total then dropOldest cap (m2 :: ms) (total - (jsToStr m.content).length)
      else m :: m2 :: ms

/-- Model of `Math.min(Number.isFinite(body.max_tokens) ? body.max_tokens : MAX_OUTPUT_TOKENS, MAX_OUTPUT_TOKENS)`
(lines 94–97 / 104–107). -/
def clampTokens (cfg : ProxyConfig) (v : JVal) : Int :=
  min (match v with | jNum n => n | _ => cfg.maxOutputTokens) cfg.maxOutputTokens

/-- One message normalization step of lines 76–79:
`{ role: m?.role || "user", content: clampText(m?.content, MAX_CHARS_PER_MESSAGE) }`. -/
def normMsg (cfg : ProxyConfig) (m : ChatMsg) : ChatMsg :=
  ⟨if truthy m.role then m.role else jStr "user",
   jStr (clampText m.content cfg.maxCharsPerMessage)⟩

/-- Model of `sanitizeChatBody` (lines 68–109): keep the last `MAX_MESSAGES`
messages, clamp each content, drop oldest messages while the total
exceeds `MAX_TOTAL_INPUT_CHARS` (never below one message), and clamp
`max_tokens`. All other body fields pass through unchanged. -/
def sanitizeChatBody (cfg : ProxyConfig) (body : ChatBody) : ChatBody :=
  let sliced := body.messages.drop (body.messages.length - cfg.maxMessages)
  let clamped := sliced.map (normMsg cfg)
  let total := sumLens clamped
  if cfg.maxTotalInputChars < total then
    { body with
        messages := dropOldest cfg.maxTotalInputChars clamped total,
        max_tokens := jNum (clampTokens cfg body.max_tokens) }
  else
    { body with
        messages := clamped,
        max_tokens := jNum (clampTokens cfg body.max_tokens) }

/-! ## Chat route: Gemini request adapter (lines 112–152) -/

/-- The strict comparison `role === r` against a string literal. -/
def roleIs (v : JVal) (r : String) : Bool :=
  match v with
  | jStr s => s == r
  | _ => false

/-- The message loop of `toGeminiRequest` (lines 119–131): skip messages
whose content is not a non-empty string, collect `system` contents
separately, map `assistant` to `model` and everything else to `user`.
Returns `(sysTexts, contents)` in message order. -/
def toGeminiLoop : List ChatMsg → List String × List JVal
  | [] => ([], [])
  | m :: ms =>
      let content := jsToStr m.content
      let rest := toGeminiLoop ms
      if content = "" then rest
      else if roleIs m.role "system" then (content :: rest.1, rest.2)
      else
        (rest.1,
         jObj [("role", jStr (if roleIs m.role "assistant" then "model" else "user")),
               ("parts", jArr [jObj [("text", jStr content)]])] :: rest.2)

/-- The value `body?.prompt` trimmed, when it is a string (line 133). -/
def promptTrim : JVal → Option String
  | jStr p => some p.trim
  | _ => none

/-- Model of `toGeminiRequest` (lines 112–152): build `{contents, generationConfig,
systemInstruction?}` with the forced fallback model name; falls back to a
single user turn made from `body.prompt` when no message survived; copies
`temperature`/`top_p` into `generationConfig` when they are numbers and
pins `generationConfig.maxOutputTokens` to the configured cap. Returns
`(geminiModel, reqBody)`. -/
def toGeminiRequest (cfg : ProxyConfig) (body : ChatBody) : String × JVal :=
  let pieces := toGeminiLoop body.messages
  let contents :=
    if pieces.2.isEmpty then
      match promptTrim body.prompt with
      | some p => if p ≠ "" then [jObj [("role", jStr "user"),
                                        ("parts", jArr [jObj [("text", jStr p)]])]] else pieces.2
      | none => pieces.2
    else pieces.2
  let genCfg :=
    [("maxOutputTokens", jNum cfg.maxOutputTokens)]
      ++ (match body.temperature with | jNum n => [("temperature", jNum n)] | _ => [])
      ++ (match body.top_p with | jNum n => [("topP", jNum n)] | _ => [])
  let reqBody :=
    jObj ([("contents", jArr contents), ("generationConfig", jObj genCfg)]
      ++ (if pieces.1.isEmpty then []
          else [("systemInstruction",
                 jObj [("parts", jArr [jObj [("text", jStr (String.intercalate "\n\n" pieces.1))]])])]))
  (cfg.geminiModel, reqBody)

/-! ## Chat route: response adapters (lines 155–190) -/

/-- An axios response as the handlers observe it: its `.data` JSON body.
(The chat route's calls use axios's default `validateStatus`, so a
non-2xx response surfaces as a thrown error, never as a resolved
response.) -/
structure AxiosResp where
  data : JVal
deriving Repr

/-- Model of `data?.candidates?.[0]?.content?.parts?.map((p) => p?.text).filter(Boolean).join("") || ""`
(lines 157–158). On a nullish `parts` the optional chain yields
`undefined` and `|| ""` gives `""`; a non-array, non-nullish `parts`
would raise a TypeError in JS and is outside the modelled input space. -/
def geminiPartsText (parts : JVal) : String :=
  match parts with
  | jArr ps => jsJoinEmpty ((ps.map (fun p => jget p "text")).filter (fun v => truthy v))
  | _ => ""

/-- Model of `fromGeminiToChatCompletions` (lines 155–172): wrap the extracted
text in an OpenAI-style `chat.completion` object. -/
def fromGeminiToChatCompletions (geminiResp : AxiosResp) (modelName : String) : JVal :=
  let data := if truthy geminiResp.data then geminiResp.data else jObj []
  let text := geminiPartsText (jget (jget (jidx (jget data "candidates") 0) "content") "parts")
  jObj [("id", jStr "gemini_fallback"),
        ("object", jStr "chat.completion"),
        ("model", jStr modelName),
        ("choices",
         jArr [jObj [("index", jNum 0),
                     ("message", jObj [("role", jStr "assistant"), ("content", jStr text)]),
                     ("finish_reason", jStr "stop")]])]

/-- Model of `fromOpenAIToChatCompletions` (lines 175–190). -/
def fromOpenAIToChatCompletions (openaiResp : AxiosResp) (modelName : String) : JVal :=
  let data := if truthy openaiResp.data then openaiResp.data else jObj []
  let text := jget (jget (jidx (jget data "choices") 0) "message") "content"
  let textOrEmpty := if truthy text then text else jStr ""
  let fr := jget (jidx (jget data "choices") 0) "finish_reason"
  jObj [("id", if truthy (jget data "id") then jget data "id" else jStr "openai_fallback"),
        ("object", jStr "chat.completion"),
        ("model", jStr modelName),
        ("choices",
         jArr [jObj [("index", jNum 0),
                     ("message", jObj [("role", jStr "assistant"), ("content", textOrEmpty)]),
                     ("finish_reason", if truthy fr then fr else jStr "stop")]])]

/-! ## Chat route: fallback chain xAI → Gemini → OpenAI (lines 192–316) -/

/-- Encode a sanitized message back to JSON for an outgoing payload. -/
def msgToJVal (m : ChatMsg) : JVal :=
  jObj [("role", m.role), ("content", m.content)]

/-- The body posted to OpenAI (lines 279–285): a fresh object carrying
the forced fallback model and the sanitized messages, temperature, top_p
and (already clamped) max_tokens. -/
def openAIPayload (cfg : ProxyConfig) (b : ChatBody) : JVal :=
  jObj [("model", jStr cfg.openaiModel),
        ("messages", jArr (b.messages.map msgToJVal)),
        ("temperature", b.temperature),
        ("top_p", b.top_p),
        ("max_tokens", b.max_tokens)]

/-- The process environment credentials the chat handler reads:
`XAI_API_KEY || GROK_API_KEY`, `GEMINI_API_KEY`, `OPENAI_API_KEY`
(each `jUndef` or a `jStr`). -/
structure ChatKeys where
  xai : JVal
  gemini : JVal
  openai : JVal

/-- Stage 1 (lines 197–216): throw `"XAI_API_KEY (or GROK_API_KEY) not
set"` when the key is falsy, otherwise post the sanitized body to the
xAI chat-completions endpoint (outcome abstracted as `net`). -/
def chatXaiOutcome (xaiKey : JVal) (net : ChatBody → Except JsError AxiosResp)
    (safeBody : ChatBody) : Except JsError AxiosResp :=
  if truthy xaiKey then net safeBody
  else Except.error ⟨jStr "XAI_API_KEY (or GROK_API_KEY) not set", jUndef⟩

/-- Stage 2 (lines 228–252): throw `"GEMINI_API_KEY not set"` when the
key is falsy, otherwise post the translated Gemini request body. -/
def chatGeminiOutcome (geminiKey : JVal) (net : JVal → Except JsError AxiosResp)
    (cfg : ProxyConfig) (safeBody : ChatBody) : Except JsError AxiosResp :=
  if truthy geminiKey then net (toGeminiRequest cfg safeBody).2
  else Except.error ⟨jStr "GEMINI_API_KEY not set", jUndef⟩

/-- Stage 3 (lines 264–293): throw `"OPENAI_API_KEY not set"` when the
key is falsy, otherwise post the OpenAI payload. -/
def chatOpenAIOutcome (openaiKey : JVal) (net : JVal → Except JsError AxiosResp)
    (cfg : ProxyConfig) (safeBody : ChatBody) : Except JsError AxiosResp :=
  if truthy openaiKey then net (openAIPayload cfg safeBody)
  else Except.error ⟨jStr "OPENAI_API_KEY not set", jUndef⟩

/-- The chat handler's provider chain (src/api/proxy/index.js lines
192–316), from the sanitized body to the HTTP status and JSON body the
caller receives. An xAI success answers with the upstream `xaiResp.data`
verbatim; a Gemini or OpenAI success answers with the translated
completion; total exhaustion answers 502 with the three `errMsg` details
keyed by provider name. -/
def chatHandler (keys : ChatKeys) (cfg : ProxyConfig) (requestId : String) (body : ChatBody)
    (xaiNet : ChatBody → Except JsError AxiosResp)
    (geminiNet openaiNet : JVal → Except JsError AxiosResp) : Nat × JVal :=
  let safeBody := sanitizeChatBody cfg body
  match chatXaiOutcome keys.xai xaiNet safeBody with
  | Except.ok r => (200, r.data)
  | Except.error xaiErr =>
      match chatGeminiOutcome keys.gemini geminiNet cfg safeBody with
      | Except.ok r => (200, fromGeminiToChatCompletions r (toGeminiRequest cfg safeBody).1)
      | Except.error geminiErr =>
          match chatOpenAIOutcome keys.openai openaiNet cfg safeBody with
          | Except.ok r => (200, fromOpenAIToChatCompletions r cfg.openaiModel)
          | Except.error openaiErr =>
              (502, jObj [("error", jStr "All providers failed"),
                          ("requestId", jStr requestId),
                          ("details",
                           jObj [("xai", errMsgChat xaiErr),
                                 ("gemini", errMsgChat geminiErr),
                                 ("openai", errMsgChat openaiErr)])])

/-- The chat route's aggregate (lines 304–313): when all three stages
fail, the caller receives a 502 whose `details` has exactly the keys
`xai`, `gemini`, `openai`, each holding that stage's `errMsg`. -/
theorem chatHandler_all_fail (keys : ChatKeys) (cfg : ProxyConfig) (requestId : String)
    (body : ChatBody) (xaiNet : ChatBody → Except JsError AxiosResp)
    (geminiNet openaiNet : JVal → Except JsError AxiosResp) (e1 e2 e3 : JsError)
    (h1 : chatXaiOutcome keys.xai xaiNet (sanitizeChatBody cfg body) = Except.error e1)
    (h2 : chatGeminiOutcome keys.gemini geminiNet cfg (sanitizeChatBody cfg body) =
      Except.error e2)
    (h3 : chatOpenAIOutcome keys.openai openaiNet cfg (sanitizeChatBody cfg body) =
      Except.error e3) :
    chatHandler keys cfg requestId body xaiNet geminiNet openaiNet =
      (502, jObj [("error", jStr "All providers failed"),
                  ("requestId", jStr requestId),
                  ("details", jObj [("xai", errMsgChat e1),
                                    ("gemini", errMsgChat e2),
                                    ("openai", errMsgChat e3)])]) := by
  simp only [chatHandler, h1, h2, h3]

/-- A Gemini success on the chat route never consults the OpenAI stage:
the result is the same for any two OpenAI network behaviors. -/
theorem chatHandler_gemini_success_ignores_openai (keys : ChatKeys) (cfg : ProxyConfig)
    (requestId : String) (body : ChatBody) (xaiNet : ChatBody → Except JsError AxiosResp)
    (geminiNet openaiNet openaiNet' : JVal → Except JsError AxiosResp) (r : AxiosResp)
    (hg : chatGeminiOutcome keys.gemini geminiNet cfg (sanitizeChatBody cfg body) =
      Except.ok r) :
    chatHandler keys cfg requestId body xaiNet geminiNet openaiNet =
      chatHandler keys cfg requestId body xaiNet geminiNet openaiNet' := by
  cases hx : chatXaiOutcome keys.xai xaiNet (sanitizeChatBody cfg body) with
  | ok r0 => simp only [chatHandler, hx]
  | error e0 => simp only [chatHandler, hx, hg]

/-! ## Helper lemmas about the sanitizer -/

/-- A map that fixes every element of a list fixes the list. -/
theorem list_map_eq_self {α : Type} (f : α → α) :
    ∀ (l : List α), (∀ x ∈ l, f x = x) → l.map f = l
  | [], _ => rfl
  | x :: xs, h => by
      rw [List.map_cons, h x (List.mem_cons_self x xs),
          list_map_eq_self f xs (fun y hy => h y (List.mem_cons_of_mem x hy))]

/-- The predicate `isStr` characterizes the string values. -/
theorem isStr_eq_true {v : JVal} (h : isStr v = true) : ∃ s, v = jStr s := by
  cases v <;> simp [isStr] at h ⊢

/-- A true `roleIs v r` forces `v` to be exactly the string `r`. -/
theorem roleIs_eq_true {v : JVal} {r : String} (h : roleIs v r = true) : v = jStr r := by
  cases v <;> simp [roleIs] at h <;> simp [h]

/-- A string already within the bound is returned unchanged. -/
theorem clampText_of_le (c : String) (maxc : Nat) (h : c.length ≤ maxc) :
    clampText (jStr c) maxc = c := by
  simp [clampText, jsToStr, h]

/-- The clamped text never exceeds the bound. -/
theorem clampText_length_le_max (v : JVal) (maxc : Nat) :
    (clampText v maxc).length ≤ maxc := by
  by_cases h : (jsToStr v).length ≤ maxc
  · simpa [clampText, h] using h
  · simp only [clampText, h, if_false]
    have h1 : (String.mk ((jsToStr v).toList.drop ((jsToStr v).length - maxc))).length
        = ((jsToStr v).toList.drop ((jsToStr v).length - maxc)).length := rfl
    have h2 : (jsToStr v).toList.length = (jsToStr v).length := rfl
    rw [h1, List.length_drop, h2]
    omega

/-- The clamped text is never longer than the coerced original. -/
theorem clampText_length_le_orig (v : JVal) (maxc : Nat) :
    (clampText v maxc).length ≤ (jsToStr v).length := by
  by_cases h : (jsToStr v).length ≤ maxc
  · simp [clampText, h]
  · simp only [clampText, h, if_false]
    have h1 : (String.mk ((jsToStr v).toList.drop ((jsToStr v).length - maxc))).length
        = ((jsToStr v).toList.drop ((jsToStr v).length - maxc)).length := rfl
    have h2 : (jsToStr v).toList.length = (jsToStr v).length := rfl
    rw [h1, List.length_drop, h2]
    omega

/-- The `sumLens` fold restarted from an arbitrary accumulator. -/
theorem sumLens_go (ms : List ChatMsg) :
    ∀ a, List.foldl (fun acc m => acc + (jsToStr m.content).length) a ms
      = a + List.foldl (fun acc m => acc + (jsToStr m.content).length) 0 ms := by
  induction ms with
  | nil => intro a; simp
  | cons m ms ih =>
      intro a
      simp only [List.foldl_cons]
      rw [ih (a + (jsToStr m.content).length), ih (0 + (jsToStr m.content).length)]
      omega

/-- Peeling one message off `sumLens`. -/
theorem sumLens_cons (m : ChatMsg) (ms : List ChatMsg) :
    sumLens (m :: ms) = (jsToStr m.content).length + sumLens ms := by
  unfold sumLens
  simp only [List.foldl_cons]
  rw [sumLens_go ms]
  omega

/-- Clamping every message can only shrink the total character count. -/
theorem sumLens_map_norm_le (cfg : ProxyConfig) (ms : List ChatMsg) :
    sumLens (ms.map (normMsg cfg)) ≤ sumLens ms := by
  induction ms with
  | nil => simp
  | cons m ms ih =>
      simp only [List.map_cons, sumLens_cons]
      have h1 : (jsToStr (normMsg cfg m).content).length ≤ (jsToStr m.content).length := by
        simpa [normMsg, jsToStr] using clampText_length_le_orig m.content cfg.maxCharsPerMessage
      omega

/-- Unfolding of one step of the trimming loop on a two-or-more element
list. -/
theorem dropOldest_cons2 (cap : Nat) (m1 m2 : ChatMsg) (ms : List ChatMsg) (total : Nat) :
    dropOldest cap (m1 :: m2 :: ms) total =
      if cap < total then dropOldest cap (m2 :: ms) (total - (jsToStr m1.content).length)
      else m1 :: m2 :: ms := rfl

/-- The trimming loop only ever removes messages from the front: every
survivor was in the input. -/
theorem dropOldest_mem (cap : Nat) :
    ∀ (l : List ChatMsg) (total : Nat) (m : ChatMsg), m ∈ dropOldest cap l total → m ∈ l
  | [], _, _, h => h
  | [_], _, _, h => h
  | m1 :: m2 :: ms, total, m, h => by
      by_cases hc : cap < total
      · rw [dropOldest_cons2, if_pos hc] at h
        exact List.mem_cons_of_mem m1 (dropOldest_mem cap (m2 :: ms) _ m h)
      · rw [dropOldest_cons2, if_neg hc] at h
        exact h

/-- Message normalization is idempotent. -/
theorem normMsg_idem (cfg : ProxyConfig) (m : ChatMsg) :
    normMsg cfg (normMsg cfg m) = normMsg cfg m := by
  have hclamp : clampText (jStr (clampText m.content cfg.maxCharsPerMessage))
      cfg.maxCharsPerMessage = clampText m.content cfg.maxCharsPerMessage :=
    clampText_of_le _ _ (clampText_length_le_max m.content cfg.maxCharsPerMessage)
  have huser : truthy (jStr "user") = true := rfl
  by_cases hr : truthy m.role = true
  · simp [normMsg, hr, hclamp]
  · simp [normMsg, hr, huser, hclamp]

/-! ## Sanitizer round-trip on in-limits canonical requests (claim C4) -/

/-- Claim C4: on a canonical chat request (every message role one of
`system`/`user`/`assistant` and every content a string) whose message
count, per-message content lengths and total character count are all
within the configured limits, the sanitizer returns the request unchanged
except for the `max_tokens` clamping. -/
theorem sanitizeChatBody_within_limits_roundtrip (cfg : ProxyConfig) (b : ChatBody)
    (hcan : ∀ m ∈ b.messages,
      (roleIs m.role "system" || roleIs m.role "user" || roleIs m.role "assistant") = true ∧
        isStr m.content = true)
    (hcount : b.messages.length ≤ cfg.maxMessages)
    (hlen : ∀ m ∈ b.messages, (jsToStr m.content).length ≤ cfg.maxCharsPerMessage)
    (htot : sumLens b.messages ≤ cfg.maxTotalInputChars) :
    sanitizeChatBody cfg b = { b with max_tokens := jNum (clampTokens cfg b.max_tokens) } := by
  have hnorm : ∀ m ∈ b.messages, normMsg cfg m = m := by
    intro m hm
    obtain ⟨hrole, hstr⟩ := hcan m hm
    obtain ⟨c, hc⟩ := isStr_eq_true hstr
    have htr : truthy m.role = true := by
      rcases Bool.or_eq_true _ _ |>.mp hrole with h | h
      · rcases Bool.or_eq_true _ _ |>.mp h with h' | h'
        · rw [roleIs_eq_true h']; rfl
        · rw [roleIs_eq_true h']; rfl
      · rw [roleIs_eq_true h]; rfl
    have hcl : clampText m.content cfg.maxCharsPerMessage = c := by
      rw [hc]
      exact clampText_of_le c _ (by simpa [hc, jsToStr] using hlen m hm)
    cases m
    simp only [normMsg, htr, if_true, hcl]
    simpa using hc.symm
  have hdrop : b.messages.length - cfg.maxMessages = 0 := Nat.sub_eq_zero_of_le hcount
  have hmap : b.messages.map (normMsg cfg) = b.messages := list_map_eq_self _ _ hnorm
  have hcond : ¬ (cfg.maxTotalInputChars < sumLens b.messages) := not_lt.mpr htot
  simp only [sanitizeChatBody, hdrop, List.drop_zero, hmap, hcond, if_false]

/-- Witness for C4: a concrete two-message canonical request within the
default limits comes back unchanged except for `max_tokens` (absent in
the input, clamped to the 900 cap in the output). -/
theorem sanitizeChatBody_within_limits_roundtrip_witness :
    sanitizeChatBody defaultConfig
        ⟨jStr "grok-4", [⟨jStr "system", jStr "be kind"⟩, ⟨jStr "user", jStr "hi"⟩],
         jNum 1, jUndef, jUndef, jUndef, [("stream", jBool false)]⟩ =
      ⟨jStr "grok-4", [⟨jStr "system", jStr "be kind"⟩, ⟨jStr "user", jStr "hi"⟩],
       jNum 1, jUndef, jUndef, jNum 900, [("stream", jBool false)]⟩ := by
  rw [sanitizeChatBody_within_limits_roundtrip defaultConfig _
        (by intro m hm; fin_cases hm <;> exact ⟨rfl, rfl⟩)
        (by decide)
        (by intro m hm; fin_cases hm <;> decide)
        (by decide)]
  rfl

/-! ## Sanitizer idempotence on in-limits requests (claim C9) -/

/-- Claim C9: on any request already within the configured limits
(message count, per-message content length of the string-coerced content,
and total), sanitizing twice equals sanitizing once. -/
theorem sanitizeChatBody_idempotent_within_limits (cfg : ProxyConfig) (b : ChatBody)
    (hcount : b.messages.length ≤ cfg.maxMessages)
    (hlen : ∀ m ∈ b.messages, (jsToStr m.content).length ≤ cfg.maxCharsPerMessage)
    (htot : sumLens b.messages ≤ cfg.maxTotalInputChars) :
    sanitizeChatBody cfg (sanitizeChatBody cfg b) = sanitizeChatBody cfg b := by
  have hdrop : b.messages.length - cfg.maxMessages = 0 := Nat.sub_eq_zero_of_le hcount
  have htot1 : sumLens (b.messages.map (normMsg cfg)) ≤ cfg.maxTotalInputChars :=
    le_trans (sumLens_map_norm_le cfg b.messages) htot
  have hcond1 : ¬ (cfg.maxTotalInputChars < sumLens (b.messages.map (normMsg cfg))) :=
    not_lt.mpr htot1
  have hs : sanitizeChatBody cfg b =
      { b with messages := b.messages.map (normMsg cfg),
               max_tokens := jNum (clampTokens cfg b.max_tokens) } := by
    simp only [sanitizeChatBody, hdrop, List.drop_zero, hcond1, if_false]
  rw [hs]
  have hdrop2 : (b.messages.map (normMsg cfg)).length - cfg.maxMessages = 0 := by
    rw [List.length_map]; exact hdrop
  have hmap2 : (b.messages.map (normMsg cfg)).map (normMsg cfg) =
      b.messages.map (normMsg cfg) := by
    rw [List.map_map]
    exact congrFun (congrArg List.map (funext fun m => normMsg_idem cfg m)) b.messages
  have htok : clampTokens cfg (jNum (clampTokens cfg b.max_tokens)) =
      clampTokens cfg b.max_tokens := by
    simp only [clampTokens]
    exact min_eq_left (min_le_right _ _)
  simp only [sanitizeChatBody, hdrop2, List.drop_zero, hmap2, hcond1, if_false, htok]

/-- Witness for C9: idempotence at a concrete in-limits request whose
message content is not even a string (coerced on the first pass). -/
theorem sanitizeChatBody_idempotent_within_limits_witness :
    sanitizeChatBody defaultConfig
        (sanitizeChatBody defaultConfig
          ⟨jUndef, [⟨jUndef, jNum 7⟩, ⟨jStr "user", jStr "tell me a story"⟩],
           jUndef, jUndef, jUndef, jNum 50, []⟩) =
      sanitizeChatBody defaultConfig
        ⟨jUndef, [⟨jUndef, jNum 7⟩, ⟨jStr "user", jStr "tell me a story"⟩],
         jUndef, jUndef, jUndef, jNum 50, []⟩ := by
  exact sanitizeChatBody_idempotent_within_limits defaultConfig _
    (by decide)
    (by intro m hm; fin_cases hm <;> decide)
    (by decide)

/-! ## Gemini multi-part text concatenation (claim C7) -/

/-- Claim C7: for the Gemini-shaped response
`{candidates:[{content:{parts:[{text:"hi"},{text:" there"}]}}]}`,
`fromGeminiToChatCompletions` places the in-order concatenation
`"hi there"` in the canonical completion's message content. -/
theorem fromGemini_multipart_concat :
    jget (jget (jidx (jget (fromGeminiToChatCompletions
        ⟨jObj [("candidates",
                jArr [jObj [("content",
                            jObj [("parts",
                                   jArr [jObj [("text", jStr "hi")],
                                         jObj [("text", jStr " there")]])])]])]⟩
        "gemini-2.0-flash") "choices") 0) "message") "content" = jStr "hi there" := by
  simp [fromGeminiToChatCompletions, geminiPartsText, jsJoinEmpty, jsStringOf,
        jget, jidx, truthy, String.join, List.lookup]

/-! ## xAI success returns the upstream body verbatim (claim C10) -/

/-- Claim C10: whenever the first (xAI) stage succeeds, the chat handler
answers 200 with the upstream response body exactly as received — no
canonicalization is applied on the primary path (the
`fromGeminiToChatCompletions` / `fromOpenAIToChatCompletions`
normalization only wraps the fallback providers' responses). -/
theorem chatHandler_xai_verbatim (keys : ChatKeys) (cfg : ProxyConfig) (requestId : String)
    (body : ChatBody) (xaiNet : ChatBody → Except JsError AxiosResp)
    (geminiNet openaiNet : JVal → Except JsError AxiosResp) (r : AxiosResp)
    (h : chatXaiOutcome keys.xai xaiNet (sanitizeChatBody cfg body) = Except.ok r) :
    chatHandler keys cfg requestId body xaiNet geminiNet openaiNet = (200, r.data) := by
  simp only [chatHandler, h]

/-- Witness for C10: a configured xAI key and an upstream 2xx body that
has neither a `choices` nor a `text` field comes back byte-for-byte. -/
theorem chatHandler_xai_verbatim_witness :
    chatHandler ⟨jStr "xai-key", jUndef, jUndef⟩ defaultConfig "req-1"
        ⟨jUndef, [], jUndef, jUndef, jUndef, jUndef, []⟩
        (fun _ => Except.ok ⟨jObj [("foo", jStr "bar")]⟩)
        (fun _ => Except.error ⟨jUndef, jUndef⟩)
        (fun _ => Except.error ⟨jUndef, jUndef⟩) =
      (200, jObj [("foo", jStr "bar")]) := by
  exact chatHandler_xai_verbatim _ _ _ _ _ _ _ ⟨jObj [("foo", jStr "bar")]⟩ rfl

/-! ## Non-string message content: coerced, not dropped (claim C8) -/

/-- Claim C8 fails on the sanitizer: for the request with the single
message `{role:"user", content: 42}` (well within every limit), the
sanitized body still contains that message — its content coerced to the
empty string `""` — rather than the message being dropped. -/
theorem sanitizer_keeps_nonstring_content_message :
    (sanitizeChatBody defaultConfig
        ⟨jUndef, [⟨jStr "user", jNum 42⟩], jUndef, jUndef, jUndef, jUndef, []⟩).messages
      = [⟨jStr "user", jStr ""⟩] := by
  rfl

/-- C8 as amended: (a) after sanitization every message content *is* a
string (non-string bodies having been coerced to `""`, the message kept);
(b) it is the Gemini request adapter that drops messages whose content is
not a non-empty string — they contribute nothing to `toGeminiRequest`'s
system texts or contents. -/
theorem nonstring_content_coerced_then_dropped_by_adapter :
    (∀ (cfg : ProxyConfig) (b : ChatBody) (m : ChatMsg),
        m ∈ (sanitizeChatBody cfg b).messages → ∃ s, m.content = jStr s) ∧
    (∀ ms : List ChatMsg,
        toGeminiLoop (ms.filter (fun m => jsToStr m.content != "")) = toGeminiLoop ms) := by
  constructor
  · intro cfg b m hm
    have hmap : ∀ m', m' ∈ (b.messages.drop (b.messages.length - cfg.maxMessages)).map
        (normMsg cfg) → ∃ s, m'.content = jStr s := by
      intro m' hm'
      obtain ⟨m0, _, hm0⟩ := List.mem_map.mp hm'
      subst hm0
      exact ⟨clampText m0.content cfg.maxCharsPerMessage, rfl⟩
    by_cases hc : cfg.maxTotalInputChars <
        sumLens ((b.messages.drop (b.messages.length - cfg.maxMessages)).map (normMsg cfg))
    · simp only [sanitizeChatBody, hc, if_true] at hm
      exact hmap m (dropOldest_mem _ _ _ m hm)
    · simp only [sanitizeChatBody, hc, if_false] at hm
      exact hmap m hm
  · intro ms
    induction ms with
    | nil => rfl
    | cons m ms ih =>
        by_cases hc : jsToStr m.content = ""
        · have hfilter : (m :: ms).filter (fun m => jsToStr m.content != "") =
              ms.filter (fun m => jsToStr m.content != "") := by
            simp [List.filter_cons, hc]
          rw [hfilter, ih]
          simp [toGeminiLoop, hc]
        · have hfilter : (m :: ms).filter (fun m => jsToStr m.content != "") =
              m :: ms.filter (fun m => jsToStr m.content != "") := by
            simp [List.filter_cons, hc]
          rw [hfilter]
          simp only [toGeminiLoop, ih]

/-- Witness for the amended C8 at the counterexample's request: the
sanitized form of the non-string-content message has string content. -/
theorem nonstring_content_coerced_then_dropped_by_adapter_witness :
    ∃ s, (ChatMsg.mk (jStr "user") (jStr "")).content = jStr s := by
  exact nonstring_content_coerced_then_dropped_by_adapter.1 defaultConfig
    ⟨jUndef, [⟨jStr "user", jNum 42⟩], jUndef, jUndef, jUndef, jUndef, []⟩
    ⟨jStr "user", jStr ""⟩ (by rw [sanitizer_keeps_nonstring_content_message]; exact List.mem_singleton.mpr rfl)

/-! ## Unconfigured providers: no network call, but a retry delay (claim C6) -/

/-- Claim C6 fails on the image route: with the Grok credential unset,
the executed stage's trace is `[attempt 0, delay 700, attempt 1]` — the
attempt function runs both times and the 700 ms backoff delay *is*
incurred — even though no network call is ever made. The recorded detail
is `"GROK_API_KEY (or XAI_API_KEY) not set"`, not `"credential not
set"`. -/
theorem unconfigured_provider_delay_counterexample :
    (withRetry (tryGrokAttempt jUndef
        (fun _ => ([REvent.netCall "https://api.x.ai/v1/images/generations"],
                   Except.error ⟨jStr "HTTP 500", jUndef⟩))) 2 700).1
      = [REvent.attempt 0, REvent.delay 700, REvent.attempt 1] ∧
    REvent.delay 700 ∈ (withRetry (tryGrokAttempt jUndef
        (fun _ => ([REvent.netCall "https://api.x.ai/v1/images/generations"],
                   Except.error ⟨jStr "HTTP 500", jUndef⟩))) 2 700).1 := by
  exact ⟨rfl, by decide⟩

/-- C6 as amended: a provider whose credential is absent never issues a
network call and is recorded as a failure with detail
`"<KEY> not set"`; but on the image route the credential check runs
*inside* the retry executor, so the unconfigured provider's attempt
function still runs the full `tries` times with the standard backoff
delay between attempts — here `[attempt 0, delay 700, attempt 1]` for
any network behavior `net` (which is never consulted). Only the chat
route, which has no retry wrapper, skips an unconfigured provider with a
single immediate failure. -/
theorem unconfigured_provider_behavior
    (net : Nat → List REvent × Except JsError JVal)
    (xaiNet : ChatBody → Except JsError AxiosResp) (b : ChatBody) :
    withRetry (tryGrokAttempt jUndef net) 2 700 =
        ([REvent.attempt 0, REvent.delay 700, REvent.attempt 1],
         Except.error (some ⟨jStr "GROK_API_KEY (or XAI_API_KEY) not set", jUndef⟩)) ∧
      chatXaiOutcome jUndef xaiNet b =
        Except.error ⟨jStr "XAI_API_KEY (or GROK_API_KEY) not set", jUndef⟩ := by
  exact ⟨rfl, rfl⟩

end Storybound
